import Mathlib

/-!
# neverbounce-go: a shallow embedding of `neverbounce.go`

The package is a two-call HTTP client: `Authenticate` obtains an OAuth2 token,
`ValidateEmail` posts one address and reads a JSON result code.

Modelling decisions.

* A Go `string` and a Go `[]byte` are byte sequences: `GoString = List UInt8`.
  String literals of the source are written `str "..."` (their UTF-8 bytes).
* The pointer receiver `n *NeverBounce` is state passing: an operation takes
  the client value and returns the client value it leaves behind.
* The Go standard library is outside the package.  What the package calls from
  `net/http`, `encoding/json` and `fmt` is collected in `Runtime`, a record of
  functions over which every theorem is quantified.  `net/url` form encoding
  and `encoding/base64` are small and are transcribed.
* `World` threads what the calls do to the outside: the transport state, the
  list of requests handed to `http.Client.Do`, and the lines given to
  `log.Println`.
* A nil-pointer dereference is a Go runtime panic; it is the outcome
  `GoResult.nilDeref`.
* The deferred `resp.Body.Close()` and the timestamp that `log.Println` puts
  before a line have no effect on what the two operations return or store and
  are left out.
-/

namespace neverbounce

set_option maxRecDepth 8192

/-! ## Go values -/

/-- Go `string` / `[]byte`: a finite sequence of bytes. -/
abbrev GoString := List UInt8

/-- The bytes of a source-code string literal (UTF-8). -/
def str (s : String) : GoString := s.data.flatMap String.utf8EncodeChar

/-- Go `error` values.  `errorString` is what `errors.New` and `fmt.Errorf`
build; `foreign` stands for any other error value handed to the package by the
transport or by the JSON decoder and returned by it untouched. -/
inductive GoError where
  | errorString (s : GoString)
  | foreign (s : GoString)
deriving DecidableEq, Repr

/-- Go `errors.New`. -/
def errors.New (s : GoString) : GoError := GoError.errorString s

/-- Go `io.EOF`, declared in package io as `errors.New("EOF")`. -/
def io.EOF : GoError := errors.New (str "EOF")

/-- Outcome of a Go call that may hit a nil-pointer dereference. -/
inductive GoResult (α : Type) where
  | returned (v : α)
  | nilDeref
deriving DecidableEq, Repr

/-! ## Data model (lines 14-37) -/

def API_BASE_URL : GoString := str "https://api.neverbounce.com/v3"

structure AuthenticationResponse where
  AccessToken : GoString
  ExpiresIn : Int
  TokenType : GoString
  Scope : GoString
deriving DecidableEq, Repr

/-- The `float64` field `ExecutionTime` is carried as a `Float`; the package
never reads it. -/
structure SingleEmailRequestResponse where
  Success : Bool
  Result : Int
  ResultDetails : Int
  ExecutionTime : Float
  ErrorCode : Int
  ErrorMsg : GoString

/-- The struct `NeverBounce`.  `Auth` is the pointer field, `none` for nil.
The unexported field `client` is set once by `NewNeverBounce` and never
reassigned; the transport it denotes is the `Do` of the `Runtime`. -/
structure NeverBounce where
  ApiUsername : GoString
  ApiKey : GoString
  Auth : Option AuthenticationResponse
deriving DecidableEq, Repr

/-! ## net/http values -/

/-- An `io.ReadCloser` response body: reading it yields `data` and then ends
cleanly (`err = none`) or with the read error `err`. -/
structure Body where
  data : GoString
  err : Option GoError
deriving DecidableEq, Repr

/-- Go `ioutil.ReadAll`: the bytes read, and the error that stopped the read. -/
def ioutil.ReadAll (b : Body) : GoString × Option GoError := (b.data, b.err)

/-- The part of `http.Request` the package sets. -/
structure Request where
  Method : GoString
  URL : GoString
  Header : List (GoString × GoString)
  Body : GoString
deriving DecidableEq, Repr

/-- The part of `http.Response` the package reads; `Body = none` is a nil body. -/
structure Response where
  StatusCode : Int
  Body : Option Body
deriving DecidableEq, Repr

/-! ## encoding/base64 (used by `SetBasicAuth`) -/

/-- The standard base64 alphabet, as a function of the 6-bit value. -/
def base64.digit (v : Nat) : UInt8 :=
  if v < 26 then UInt8.ofNat (65 + v)
  else if v < 52 then UInt8.ofNat (97 + (v - 26))
  else if v < 62 then UInt8.ofNat (48 + (v - 52))
  else if v = 62 then 43
  else 47

/-- Go `base64.StdEncoding.EncodeToString`. -/
def base64.EncodeToString : GoString → GoString
  | [] => []
  | [a] =>
    [base64.digit (a.toNat / 4), base64.digit (a.toNat % 4 * 16), 61, 61]
  | [a, b] =>
    [base64.digit (a.toNat / 4), base64.digit (a.toNat % 4 * 16 + b.toNat / 16),
     base64.digit (b.toNat % 16 * 4), 61]
  | a :: b :: c :: rest =>
    base64.digit (a.toNat / 4) :: base64.digit (a.toNat % 4 * 16 + b.toNat / 16) ::
    base64.digit (b.toNat % 16 * 4 + c.toNat / 64) :: base64.digit (c.toNat % 64) ::
    base64.EncodeToString rest

/-! ## net/url form encoding -/

/-- Go `url.shouldEscape` in mode `encodeQueryComponent`: everything but the
unreserved characters is escaped. -/
def url.shouldEscape (c : UInt8) : Bool :=
  if (97 ≤ c ∧ c ≤ 122) ∨ (65 ≤ c ∧ c ≤ 90) ∨ (48 ≤ c ∧ c ≤ 57) then false
  else if c = 45 ∨ c = 95 ∨ c = 46 ∨ c = 126 then false
  else true

/-- The table `"0123456789ABCDEF"` of net/url. -/
def url.upperhex (v : Nat) : UInt8 :=
  if v < 10 then UInt8.ofNat (48 + v) else UInt8.ofNat (65 + (v - 10))

/-- What `url.QueryEscape` writes for one byte. -/
def url.escapeByte (c : UInt8) : GoString :=
  if url.shouldEscape c then
    if c = 32 then [43]
    else [37, url.upperhex (c.toNat / 16), url.upperhex (c.toNat % 16)]
  else [c]

/-- Go `url.QueryEscape`. -/
def url.QueryEscape (s : GoString) : GoString := s.flatMap url.escapeByte

/-- Go `url.unhex`: the value of a hexadecimal digit. -/
def url.unhex (c : UInt8) : Nat :=
  if 48 ≤ c ∧ c ≤ 57 then c.toNat - 48
  else if 97 ≤ c ∧ c ≤ 102 then c.toNat - 97 + 10
  else if 65 ≤ c ∧ c ≤ 70 then c.toNat - 65 + 10
  else 0

/-- The decoding direction of query escaping, as in Go `url.QueryUnescape` on
well-formed input: `%XY` is the byte with hexadecimal digits `XY`, `+` is a
space, every other byte stands for itself.  (A `%` not followed by two bytes,
which `QueryUnescape` reports as an error, is kept as it is.) -/
def url.unescape : GoString → GoString
  | [] => []
  | [c] => [if c = 43 then 32 else c]
  | [c, d] => (if c = 43 then 32 else c) :: url.unescape [d]
  | c :: h :: l :: rest =>
    if c = 37 then UInt8.ofNat (url.unhex h * 16 + url.unhex l) :: url.unescape rest
    else (if c = 43 then 32 else c) :: url.unescape (h :: l :: rest)

/-- Go `url.Values`, a `map[string][]string`, kept as an association list
with distinct keys in ascending byte order (the order `Encode` emits). -/
structure url.Values where
  entries : List (GoString × List GoString)
deriving DecidableEq, Repr

/-- Go `url.Values{}`. -/
def url.Values.empty : url.Values := ⟨[]⟩

/-- Byte-wise `<` on Go strings. -/
def strLt : GoString → GoString → Bool
  | [], [] => false
  | [], _ :: _ => true
  | _ :: _, [] => false
  | a :: as, b :: bs => if a < b then true else if b < a then false else strLt as bs

/-- Insertion of `key ↦ [value]` into an ascending association list. -/
def url.setEntry : List (GoString × List GoString) → GoString → GoString →
    List (GoString × List GoString)
  | [], key, value => [(key, [value])]
  | (k, vs) :: rest, key, value =>
    if key = k then (k, [value]) :: rest
    else if strLt key k then (key, [value]) :: (k, vs) :: rest
    else (k, vs) :: url.setEntry rest key value

/-- Go `url.Values.Set`: the key now maps to the single value. -/
def url.Values.Set (v : url.Values) (key value : GoString) : url.Values :=
  ⟨url.setEntry v.entries key value⟩

/-- The `key=value` items of `url.Values.Encode`, in emission order. -/
def url.Values.items (v : url.Values) : List GoString :=
  v.entries.flatMap fun kv => kv.2.map fun value =>
    url.QueryEscape kv.1 ++ [61] ++ url.QueryEscape value

/-- Go `url.Values.Encode`: the items joined by `&`. -/
def url.Values.Encode (v : url.Values) : GoString :=
  [38].intercalate (url.Values.items v)

/-! ## Requests the package builds -/

/-- Go `http.NewRequest`; the method and URL it is given here are constants
that always parse, so the error it can return is never set. -/
def http.NewRequest (method url body : GoString) : Request :=
  { Method := method, URL := url, Header := [], Body := body }

/-- Go `Header.Add`. -/
def Request.AddHeader (r : Request) (key value : GoString) : Request :=
  { r with Header := r.Header ++ [(key, value)] }

/-- Go `Request.SetBasicAuth`. -/
def Request.SetBasicAuth (r : Request) (username password : GoString) : Request :=
  { r with Header := (r.Header.filter fun kv => kv.1 ≠ str "Authorization") ++
      [(str "Authorization",
        str "Basic " ++ base64.EncodeToString (username ++ [58] ++ password))] }

/-! ## The standard-library calls taken as parameters -/

/-- What the package calls from outside itself.  `σ` is the state of the
transport and of the remote service behind it.

* `Do` is `http.Client.Do`: from the state and a request, an error or a
  response, and the next state.
* `DecodeAuth` and `DecodeSingle` are `json.NewDecoder(body).Decode(&p)` for a
  nil pointer `p` of the two response types: an error, or the pointer value
  left in `p` (`none` when it is still nil).
* `Quote` is the verb `%#v` of package fmt applied to a string.
* `GoSyntaxAuth` is the verb `%#v` applied to a `*AuthenticationResponse`. -/
structure Runtime (σ : Type) where
  Do : σ → Request → Except GoError Response × σ
  DecodeAuth : Body → Except GoError (Option AuthenticationResponse)
  DecodeSingle : Body → Except GoError (Option SingleEmailRequestResponse)
  Quote : GoString → GoString
  GoSyntaxAuth : Option AuthenticationResponse → GoString

/-- The outside of the client: transport state, the requests handed to
`http.Client.Do` so far (oldest first), the lines given to `log.Println`. -/
structure World (σ : Type) where
  net : σ
  sent : List Request
  log : List GoString

/-- The call `n.client.Do(r)`: the request is recorded, the transport answers. -/
def Runtime.send {σ : Type} (rt : Runtime σ) (w : World σ) (r : Request) :
    Except GoError Response × World σ :=
  ((rt.Do w.net r).1, { w with net := (rt.Do w.net r).2, sent := w.sent ++ [r] })

/-! ## The package (lines 39-142) -/

/-- Lines 39-47. -/
def NewNeverBounce (apiUsername apiKey : GoString) : NeverBounce :=
  { ApiUsername := apiUsername, ApiKey := apiKey, Auth := none }

/-- The request built at lines 56-62. -/
def authRequest (n : NeverBounce) : Request :=
  let reqURL := API_BASE_URL ++ str "/access_token"
  let data := url.Values.empty.Set (str "grant_type") (str "client_credentials")
  ((http.NewRequest (str "POST") reqURL data.Encode).AddHeader
    (str "Content-Type") (str "application/x-www-form-urlencoded")).SetBasicAuth
    n.ApiUsername n.ApiKey

/-- Lines 70-75: the bytes read from the body of a non-200 response; the read
error is dropped, and a nil body leaves the slice nil (empty). -/
def errorBodyOf (resp : Response) : GoString :=
  match resp.Body with
  | some body => (ioutil.ReadAll body).1
  | none => []

/-- Lines 51-97.  The result is the returned `error` (`none` for nil), the
client as the call leaves it, and the world after the call. -/
def Authenticate {σ : Type} (rt : Runtime σ) (n : NeverBounce) (w : World σ) :
    Option GoError × NeverBounce × World σ :=
  if n.ApiUsername = [] ∨ n.ApiKey = [] then
    (some (errors.New (str "Missing API Username and/or API Key")), n, w)
  else
    match rt.send w (authRequest n) with
    | (Except.error err, w1) => (some err, n, w1)
    | (Except.ok resp, w1) =>
      if resp.StatusCode ≠ 200 then
        (some (errors.New
          (str "Received error response from server for authentication request: " ++
            errorBodyOf resp)), n, w1)
      else
        match resp.Body with
        | none =>
          (some (errors.New (str "No body received from authentication response")), n, w1)
        | some body =>
          match rt.DecodeAuth body with
          | Except.error err => (some err, n, w1)
          | Except.ok authResponse =>
            let n1 : NeverBounce := { n with Auth := authResponse }
            (none, n1,
              { w1 with log := w1.log ++
                  [str "Successfully authenticated: " ++ rt.GoSyntaxAuth n1.Auth] })

/-- The request built at lines 107-113. -/
def singleRequest (accessToken emailAddr : GoString) : Request :=
  let reqURL := API_BASE_URL ++ str "/single"
  let data := (url.Values.empty.Set (str "access_token") accessToken).Set
    (str "email") emailAddr
  (http.NewRequest (str "POST") reqURL data.Encode).AddHeader
    (str "Content-Type") (str "application/x-www-form-urlencoded")

/-- Lines 102-142.  The result is what the call does (the returned pair, or a
nil-pointer dereference at line 133), the client, and the world after it. -/
def ValidateEmail {σ : Type} (rt : Runtime σ) (n : NeverBounce) (emailAddr : GoString)
    (w : World σ) : GoResult (Bool × Option GoError) × NeverBounce × World σ :=
  match n.Auth with
  | none =>
    (GoResult.returned (false, some (errors.New (str
      "Authorization missing. Authenticate() must be called first before making API requests"))),
      n, w)
  | some auth =>
    match rt.send w (singleRequest auth.AccessToken emailAddr) with
    | (Except.error err, w1) => (GoResult.returned (false, some err), n, w1)
    | (Except.ok resp, w1) =>
      match resp.Body with
      | none =>
        (GoResult.returned
          (false, some (errors.New (str "No body received from authentication response"))),
          n, w1)
      | some body =>
        match rt.DecodeSingle body with
        | Except.error err => (GoResult.returned (false, some err), n, w1)
        | Except.ok none => (GoResult.nilDeref, n, w1)
        | Except.ok (some singleEmailReqResp) =>
          if singleEmailReqResp.Success = false then
            (GoResult.returned (false, some (errors.New
              (str "Unable to check email validity: " ++
                rt.Quote singleEmailReqResp.ErrorMsg))), n, w1)
          else if singleEmailReqResp.Result = 0 then
            (GoResult.returned (true, none), n, w1)
          else
            (GoResult.returned (false, none), n, w1)

/-! ## A scripted runtime for concrete runs -/

/-- A transport that answers from a script: each call to `Do` consumes the next
scripted answer; an exhausted script is a connection failure. -/
def scriptedDo (script : List (Except GoError Response)) (_ : Request) :
    Except GoError Response × List (Except GoError Response) :=
  match script with
  | [] => (Except.error (GoError.foreign (str "connection refused")), [])
  | answer :: rest => (answer, rest)

/-- The token document of the specification's example. -/
def tokenJSON : GoString :=
  str "\x7b\"access_token\":\"tok123\",\"expires_in\":3600,\"token_type\":\"bearer\",\"scope\":\"default\"\x7d"

/-- The token that `tokenJSON` decodes to. -/
def tok123 : AuthenticationResponse :=
  ⟨str "tok123", 3600, str "bearer", str "default"⟩

/-- A stand-in for `Decode` into `*AuthenticationResponse` on four kinds of
stream, with the answers of encoding/json: an empty stream is `io.EOF`, the
literal `null` leaves the pointer nil, `tokenJSON` is its token, and the other
streams used here are not JSON. -/
def sampleDecodeAuth (b : Body) : Except GoError (Option AuthenticationResponse) :=
  if b.data = [] then Except.error (b.err.getD io.EOF)
  else if b.data = str "null" then Except.ok none
  else if b.data = tokenJSON then Except.ok (some tok123)
  else Except.error (GoError.foreign (str "invalid character"))

/-- A stand-in for `Decode` into `*SingleEmailRequestResponse`, in the same way,
on the result documents of the specification's examples. -/
def sampleDecodeSingle (b : Body) : Except GoError (Option SingleEmailRequestResponse) :=
  if b.data = [] then Except.error (b.err.getD io.EOF)
  else if b.data = str "null" then Except.ok none
  else if b.data = str "\x7b\"success\":true,\"result\":0\x7d" then
    Except.ok (some ⟨true, 0, 0, 0, 0, []⟩)
  else if b.data = str "\x7b\"success\":true,\"result\":2\x7d" then
    Except.ok (some ⟨true, 2, 0, 0, 0, []⟩)
  else if b.data = str "\x7b\"success\":false,\"error_msg\":\"bad token\"\x7d" then
    Except.ok (some ⟨false, 0, 0, 0, 0, str "bad token"⟩)
  else if b.data = str "\x7b\"success\":false,\"error_msg\":\"quota exceeded\"\x7d" then
    Except.ok (some ⟨false, 0, 0, 0, 0, str "quota exceeded"⟩)
  else Except.error (GoError.foreign (str "invalid character"))

/-- A stand-in for the verb `%#v` on a string: the string in double quotes,
which is what fmt prints for printable ASCII without quote or backslash. -/
def sampleQuote (s : GoString) : GoString := [34] ++ s ++ [34]

/-- A stand-in for the verb `%#v` on a `*AuthenticationResponse`. -/
def sampleGoSyntaxAuth (a : Option AuthenticationResponse) : GoString :=
  match a with
  | none => str "(*neverbounce.AuthenticationResponse)(nil)"
  | some t =>
    str "&neverbounce.AuthenticationResponse\x7bAccessToken:" ++ sampleQuote t.AccessToken ++
      str ", ExpiresIn:" ++ str (toString t.ExpiresIn) ++
      str ", TokenType:" ++ sampleQuote t.TokenType ++
      str ", Scope:" ++ sampleQuote t.Scope ++ str "\x7d"

/-- The scripted runtime: scripted transport, stand-in decoders and formatters. -/
def scripted : Runtime (List (Except GoError Response)) where
  Do := scriptedDo
  DecodeAuth := sampleDecodeAuth
  DecodeSingle := sampleDecodeSingle
  Quote := sampleQuote
  GoSyntaxAuth := sampleGoSyntaxAuth

/-- A world in which nothing was sent or logged and the transport will give
the scripted answers. -/
def freshWorld (script : List (Except GoError Response)) :
    World (List (Except GoError Response)) :=
  { net := script, sent := [], log := [] }

/-- A response with the given status whose body holds the given bytes. -/
def respWith (status : Int) (data : GoString) : Response :=
  { StatusCode := status, Body := some { data := data, err := none } }

/-- A client with credentials and no token. -/
def aliceClient : NeverBounce := NewNeverBounce (str "alice") (str "s3cret")

/-- A client with credentials and the token `tok123`. -/
def aliceAuthed : NeverBounce := { aliceClient with Auth := some tok123 }

/-! ## Unfolding lemmas -/

theorem Authenticate_missing {σ : Type} (rt : Runtime σ) (n : NeverBounce) (w : World σ)
    (h : n.ApiUsername = [] ∨ n.ApiKey = []) :
    Authenticate rt n w =
      (some (errors.New (str "Missing API Username and/or API Key")), n, w) := by
  simp [Authenticate, h]

theorem Authenticate_transport {σ : Type} (rt : Runtime σ) (n : NeverBounce) (w : World σ)
    (err : GoError) (hu : n.ApiUsername ≠ []) (hk : n.ApiKey ≠ [])
    (hDo : (rt.Do w.net (authRequest n)).1 = Except.error err) :
    Authenticate rt n w = (some err, n, (rt.send w (authRequest n)).2) := by
  simp [Authenticate, Runtime.send, hu, hk, hDo]

theorem Authenticate_status {σ : Type} (rt : Runtime σ) (n : NeverBounce) (w : World σ)
    (resp : Response) (hu : n.ApiUsername ≠ []) (hk : n.ApiKey ≠ [])
    (hDo : (rt.Do w.net (authRequest n)).1 = Except.ok resp) (hs : resp.StatusCode ≠ 200) :
    Authenticate rt n w =
      (some (errors.New
        (str "Received error response from server for authentication request: " ++
          errorBodyOf resp)), n, (rt.send w (authRequest n)).2) := by
  simp [Authenticate, Runtime.send, hu, hk, hDo, hs]

theorem Authenticate_nobody {σ : Type} (rt : Runtime σ) (n : NeverBounce) (w : World σ)
    (resp : Response) (hu : n.ApiUsername ≠ []) (hk : n.ApiKey ≠ [])
    (hDo : (rt.Do w.net (authRequest n)).1 = Except.ok resp) (hs : resp.StatusCode = 200)
    (hb : resp.Body = none) :
    Authenticate rt n w =
      (some (errors.New (str "No body received from authentication response")), n,
        (rt.send w (authRequest n)).2) := by
  simp [Authenticate, Runtime.send, hu, hk, hDo, hs, hb]

theorem Authenticate_decode_error {σ : Type} (rt : Runtime σ) (n : NeverBounce) (w : World σ)
    (resp : Response) (body : Body) (err : GoError)
    (hu : n.ApiUsername ≠ []) (hk : n.ApiKey ≠ [])
    (hDo : (rt.Do w.net (authRequest n)).1 = Except.ok resp) (hs : resp.StatusCode = 200)
    (hb : resp.Body = some body) (hd : rt.DecodeAuth body = Except.error err) :
    Authenticate rt n w = (some err, n, (rt.send w (authRequest n)).2) := by
  simp [Authenticate, Runtime.send, hu, hk, hDo, hs, hb, hd]

theorem Authenticate_decoded {σ : Type} (rt : Runtime σ) (n : NeverBounce) (w : World σ)
    (resp : Response) (body : Body) (p : Option AuthenticationResponse)
    (hu : n.ApiUsername ≠ []) (hk : n.ApiKey ≠ [])
    (hDo : (rt.Do w.net (authRequest n)).1 = Except.ok resp) (hs : resp.StatusCode = 200)
    (hb : resp.Body = some body) (hd : rt.DecodeAuth body = Except.ok p) :
    Authenticate rt n w =
      (none, { n with Auth := p },
        { (rt.send w (authRequest n)).2 with
          log := w.log ++ [str "Successfully authenticated: " ++ rt.GoSyntaxAuth p] }) := by
  simp [Authenticate, Runtime.send, hu, hk, hDo, hs, hb, hd]

theorem ValidateEmail_unauthenticated {σ : Type} (rt : Runtime σ) (n : NeverBounce)
    (e : GoString) (w : World σ) (h : n.Auth = none) :
    ValidateEmail rt n e w =
      (GoResult.returned (false, some (errors.New (str
        "Authorization missing. Authenticate() must be called first before making API requests"))),
        n, w) := by
  simp [ValidateEmail, h]

theorem ValidateEmail_transport {σ : Type} (rt : Runtime σ) (n : NeverBounce)
    (tok : AuthenticationResponse) (e : GoString) (w : World σ) (err : GoError)
    (ha : n.Auth = some tok)
    (hDo : (rt.Do w.net (singleRequest tok.AccessToken e)).1 = Except.error err) :
    ValidateEmail rt n e w =
      (GoResult.returned (false, some err), n,
        (rt.send w (singleRequest tok.AccessToken e)).2) := by
  simp [ValidateEmail, Runtime.send, ha, hDo]

theorem ValidateEmail_nobody {σ : Type} (rt : Runtime σ) (n : NeverBounce)
    (tok : AuthenticationResponse) (e : GoString) (w : World σ) (resp : Response)
    (ha : n.Auth = some tok)
    (hDo : (rt.Do w.net (singleRequest tok.AccessToken e)).1 = Except.ok resp)
    (hb : resp.Body = none) :
    ValidateEmail rt n e w =
      (GoResult.returned
        (false, some (errors.New (str "No body received from authentication response"))),
        n, (rt.send w (singleRequest tok.AccessToken e)).2) := by
  simp [ValidateEmail, Runtime.send, ha, hDo, hb]

theorem ValidateEmail_decode_error {σ : Type} (rt : Runtime σ) (n : NeverBounce)
    (tok : AuthenticationResponse) (e : GoString) (w : World σ) (resp : Response)
    (body : Body) (err : GoError) (ha : n.Auth = some tok)
    (hDo : (rt.Do w.net (singleRequest tok.AccessToken e)).1 = Except.ok resp)
    (hb : resp.Body = some body) (hd : rt.DecodeSingle body = Except.error err) :
    ValidateEmail rt n e w =
      (GoResult.returned (false, some err), n,
        (rt.send w (singleRequest tok.AccessToken e)).2) := by
  simp [ValidateEmail, Runtime.send, ha, hDo, hb, hd]

theorem ValidateEmail_nil {σ : Type} (rt : Runtime σ) (n : NeverBounce)
    (tok : AuthenticationResponse) (e : GoString) (w : World σ) (resp : Response)
    (body : Body) (ha : n.Auth = some tok)
    (hDo : (rt.Do w.net (singleRequest tok.AccessToken e)).1 = Except.ok resp)
    (hb : resp.Body = some body) (hd : rt.DecodeSingle body = Except.ok none) :
    ValidateEmail rt n e w =
      (GoResult.nilDeref, n, (rt.send w (singleRequest tok.AccessToken e)).2) := by
  simp [ValidateEmail, Runtime.send, ha, hDo, hb, hd]

theorem ValidateEmail_decoded {σ : Type} (rt : Runtime σ) (n : NeverBounce)
    (tok : AuthenticationResponse) (e : GoString) (w : World σ) (resp : Response)
    (body : Body) (r : SingleEmailRequestResponse) (ha : n.Auth = some tok)
    (hDo : (rt.Do w.net (singleRequest tok.AccessToken e)).1 = Except.ok resp)
    (hb : resp.Body = some body) (hd : rt.DecodeSingle body = Except.ok (some r)) :
    ValidateEmail rt n e w =
      (if r.Success = false then
        GoResult.returned (false, some (errors.New
          (str "Unable to check email validity: " ++ rt.Quote r.ErrorMsg)))
       else if r.Result = 0 then GoResult.returned (true, none)
       else GoResult.returned (false, none),
       n, (rt.send w (singleRequest tok.AccessToken e)).2) := by
  simp only [ValidateEmail, Runtime.send, ha, hDo, hb, hd]
  split_ifs <;> rfl

/-- The client is never written by `ValidateEmail`. -/
theorem ValidateEmail_client {σ : Type} (rt : Runtime σ) (n : NeverBounce)
    (e : GoString) (w : World σ) : (ValidateEmail rt n e w).2.1 = n := by
  unfold ValidateEmail
  split
  · rfl
  · split
    · rfl
    · split
      · rfl
      · split
        · rfl
        · rfl
        · split_ifs <;> rfl

/-- With a token stored, the world after `ValidateEmail` is the world after
the one call to the transport. -/
theorem ValidateEmail_world {σ : Type} (rt : Runtime σ) (n : NeverBounce)
    (tok : AuthenticationResponse) (e : GoString) (w : World σ) (ha : n.Auth = some tok) :
    (ValidateEmail rt n e w).2.2 = (rt.send w (singleRequest tok.AccessToken e)).2 := by
  cases hDo : (rt.Do w.net (singleRequest tok.AccessToken e)).1 with
  | error err => rw [ValidateEmail_transport rt n tok e w err ha hDo]
  | ok resp =>
    cases hb : resp.Body with
    | none => rw [ValidateEmail_nobody rt n tok e w resp ha hDo hb]
    | some body =>
      cases hd : rt.DecodeSingle body with
      | error err => rw [ValidateEmail_decode_error rt n tok e w resp body err ha hDo hb hd]
      | ok p =>
        cases p with
        | none => rw [ValidateEmail_nil rt n tok e w resp body ha hDo hb hd]
        | some r => rw [ValidateEmail_decoded rt n tok e w resp body r ha hDo hb hd]

/-- With a token stored, `ValidateEmail` hands exactly one request to the
transport, the one built from the token and the address. -/
theorem ValidateEmail_sent {σ : Type} (rt : Runtime σ) (n : NeverBounce)
    (tok : AuthenticationResponse) (e : GoString) (w : World σ) (ha : n.Auth = some tok) :
    (ValidateEmail rt n e w).2.2.sent = w.sent ++ [singleRequest tok.AccessToken e] := by
  rw [ValidateEmail_world rt n tok e w ha]
  rfl

/-- The stand-in quoting is injective. -/
theorem sampleQuote_injective : Function.Injective scripted.Quote := by
  intro a b h
  have h2 : [34] ++ a ++ [34] = [34] ++ b ++ [34] := h
  simpa using h2

/-! ## Claims -/

/-- C1. A client whose `ApiUsername` or `ApiKey` is empty gets the error
"Missing API Username and/or API Key" from `Authenticate`, whatever the
transport; nothing is handed to the transport (the world, and in it the list
of sent requests, is as before) and the client is as before. -/
theorem Authenticate_missing_credentials {σ : Type} (rt : Runtime σ) (n : NeverBounce)
    (w : World σ) (h : n.ApiUsername = [] ∨ n.ApiKey = []) :
    (Authenticate rt n w).1 =
        some (errors.New (str "Missing API Username and/or API Key")) ∧
      (Authenticate rt n w).2.2.sent = w.sent ∧
      (Authenticate rt n w).2.2 = w ∧
      (Authenticate rt n w).2.1 = n := by
  rw [Authenticate_missing rt n w h]
  exact ⟨rfl, rfl, rfl, rfl⟩

theorem Authenticate_missing_credentials_witness :
    ((NewNeverBounce (str "alice") []).ApiUsername = [] ∨
        (NewNeverBounce (str "alice") []).ApiKey = []) ∧
      (Authenticate scripted (NewNeverBounce (str "alice") [])
          (freshWorld [Except.ok (respWith 200 tokenJSON)])).1 =
        some (errors.New (str "Missing API Username and/or API Key")) ∧
      (Authenticate scripted (NewNeverBounce (str "alice") [])
          (freshWorld [Except.ok (respWith 200 tokenJSON)])).2.2.sent = [] :=
  ⟨Or.inr rfl,
    (Authenticate_missing_credentials scripted (NewNeverBounce (str "alice") [])
      (freshWorld [Except.ok (respWith 200 tokenJSON)]) (Or.inr rfl)).1,
    (Authenticate_missing_credentials scripted (NewNeverBounce (str "alice") [])
      (freshWorld [Except.ok (respWith 200 tokenJSON)]) (Or.inr rfl)).2.1⟩

/-- C2. A client with no stored token (`Auth` is nil) gets `(false, err)` from
`ValidateEmail`, `err` being "Authorization missing. Authenticate() must be
called first before making API requests", for every address and transport, and
nothing is handed to the transport; a client fresh from `NewNeverBounce` is
such a client. -/
theorem ValidateEmail_requires_token {σ : Type} (rt : Runtime σ) (n : NeverBounce)
    (e : GoString) (w : World σ) (h : n.Auth = none) :
    ((ValidateEmail rt n e w).1 =
        GoResult.returned (false, some (errors.New (str
          "Authorization missing. Authenticate() must be called first before making API requests"))) ∧
      (ValidateEmail rt n e w).2.2.sent = w.sent ∧
      (ValidateEmail rt n e w).2.2 = w) ∧
    ∀ apiUsername apiKey : GoString,
      (NewNeverBounce apiUsername apiKey).Auth = none ∧
      (ValidateEmail rt (NewNeverBounce apiUsername apiKey) e w).1 =
        GoResult.returned (false, some (errors.New (str
          "Authorization missing. Authenticate() must be called first before making API requests"))) ∧
      (ValidateEmail rt (NewNeverBounce apiUsername apiKey) e w).2.2 = w := by
  refine ⟨?_, fun u k => ?_⟩
  · rw [ValidateEmail_unauthenticated rt n e w h]
    exact ⟨rfl, rfl, rfl⟩
  · rw [ValidateEmail_unauthenticated rt (NewNeverBounce u k) e w rfl]
    exact ⟨rfl, rfl, rfl⟩

theorem ValidateEmail_requires_token_witness :
    aliceClient.Auth = none ∧
      (ValidateEmail scripted aliceClient (str "bob@example.com")
          (freshWorld [Except.ok (respWith 200 (str "\x7b\"success\":true,\"result\":0\x7d"))])).1 =
        GoResult.returned (false, some (errors.New (str
          "Authorization missing. Authenticate() must be called first before making API requests"))) ∧
      (ValidateEmail scripted aliceClient (str "bob@example.com")
          (freshWorld [Except.ok (respWith 200 (str "\x7b\"success\":true,\"result\":0\x7d"))])).2.2.sent = [] :=
  ⟨rfl,
    (ValidateEmail_requires_token scripted aliceClient (str "bob@example.com")
      (freshWorld [Except.ok (respWith 200 (str "\x7b\"success\":true,\"result\":0\x7d"))])
      rfl).1.1,
    (ValidateEmail_requires_token scripted aliceClient (str "bob@example.com")
      (freshWorld [Except.ok (respWith 200 (str "\x7b\"success\":true,\"result\":0\x7d"))])
      rfl).1.2.1⟩

/-- C3. With a token stored, when the body of the transport's response decodes
to a result object whose `success` is true, `ValidateEmail` returns a nil error
and the boolean `result == 0`: `(true, nil)` for result 0, `(false, nil)` for
every other result code.  The status code of the response plays no part. -/
theorem ValidateEmail_success {σ : Type} (rt : Runtime σ) (n : NeverBounce)
    (tok : AuthenticationResponse) (e : GoString) (w : World σ) (resp : Response)
    (body : Body) (r : SingleEmailRequestResponse) (ha : n.Auth = some tok)
    (hDo : (rt.Do w.net (singleRequest tok.AccessToken e)).1 = Except.ok resp)
    (hb : resp.Body = some body) (hd : rt.DecodeSingle body = Except.ok (some r))
    (hs : r.Success = true) :
    (ValidateEmail rt n e w).1 = GoResult.returned (decide (r.Result = 0), none) ∧
      (r.Result = 0 → (ValidateEmail rt n e w).1 = GoResult.returned (true, none)) ∧
      (r.Result ≠ 0 → (ValidateEmail rt n e w).1 = GoResult.returned (false, none)) := by
  rw [ValidateEmail_decoded rt n tok e w resp body r ha hDo hb hd]
  by_cases h0 : r.Result = 0 <;> simp [hs, h0]

theorem ValidateEmail_success_witness :
    (ValidateEmail scripted aliceAuthed (str "bob@example.com")
        (freshWorld [Except.ok (respWith 200 (str "\x7b\"success\":true,\"result\":0\x7d"))])).1 =
      GoResult.returned (true, none) ∧
    (ValidateEmail scripted aliceAuthed (str "bob@example.com")
        (freshWorld [Except.ok (respWith 200 (str "\x7b\"success\":true,\"result\":2\x7d"))])).1 =
      GoResult.returned (false, none) :=
  ⟨(ValidateEmail_success scripted aliceAuthed tok123 (str "bob@example.com")
      (freshWorld [Except.ok (respWith 200 (str "\x7b\"success\":true,\"result\":0\x7d"))])
      (respWith 200 (str "\x7b\"success\":true,\"result\":0\x7d"))
      ⟨str "\x7b\"success\":true,\"result\":0\x7d", none⟩ ⟨true, 0, 0, 0, 0, []⟩
      rfl rfl rfl rfl rfl).2.1 rfl,
   (ValidateEmail_success scripted aliceAuthed tok123 (str "bob@example.com")
      (freshWorld [Except.ok (respWith 200 (str "\x7b\"success\":true,\"result\":2\x7d"))])
      (respWith 200 (str "\x7b\"success\":true,\"result\":2\x7d"))
      ⟨str "\x7b\"success\":true,\"result\":2\x7d", none⟩ ⟨true, 2, 0, 0, 0, []⟩
      rfl rfl rfl rfl rfl).2.2 (by decide)⟩

/-- C4. With a token stored, when the body of the transport's response decodes
to a result object whose `success` is false, `ValidateEmail` returns `(false,
err)` where `err` is `fmt.Errorf("Unable to check email validity: %#v",
error_msg)`, whatever its `result`.  The error carries the `error_msg` of the
response as `%#v` writes it: two such calls return the same error exactly when
the two quoted `error_msg` are equal, and, `%#v` writing a string as a quoted
literal from which it can be read back (`Quote` injective), exactly when the
two `error_msg` are equal. -/
theorem ValidateEmail_service_error {σ : Type} (rt : Runtime σ)
    (n : NeverBounce) (tok : AuthenticationResponse) (e : GoString) (w : World σ)
    (resp : Response) (body : Body) (r : SingleEmailRequestResponse)
    (n2 : NeverBounce) (tok2 : AuthenticationResponse) (e2 : GoString) (w2 : World σ)
    (resp2 : Response) (body2 : Body) (r2 : SingleEmailRequestResponse)
    (ha : n.Auth = some tok)
    (hDo : (rt.Do w.net (singleRequest tok.AccessToken e)).1 = Except.ok resp)
    (hb : resp.Body = some body) (hd : rt.DecodeSingle body = Except.ok (some r))
    (hs : r.Success = false)
    (ha2 : n2.Auth = some tok2)
    (hDo2 : (rt.Do w2.net (singleRequest tok2.AccessToken e2)).1 = Except.ok resp2)
    (hb2 : resp2.Body = some body2) (hd2 : rt.DecodeSingle body2 = Except.ok (some r2))
    (hs2 : r2.Success = false) :
    (ValidateEmail rt n e w).1 =
        GoResult.returned (false, some (errors.New
          (str "Unable to check email validity: " ++ rt.Quote r.ErrorMsg))) ∧
      ((ValidateEmail rt n e w).1 = (ValidateEmail rt n2 e2 w2).1 ↔
        rt.Quote r.ErrorMsg = rt.Quote r2.ErrorMsg) ∧
      (Function.Injective rt.Quote →
        ((ValidateEmail rt n e w).1 = (ValidateEmail rt n2 e2 w2).1 ↔
          r.ErrorMsg = r2.ErrorMsg)) := by
  rw [ValidateEmail_decoded rt n tok e w resp body r ha hDo hb hd,
    ValidateEmail_decoded rt n2 tok2 e2 w2 resp2 body2 r2 ha2 hDo2 hb2 hd2]
  simp only [hs, hs2, if_true, true_and]
  have key : GoResult.returned (false, some (errors.New
        (str "Unable to check email validity: " ++ rt.Quote r.ErrorMsg))) =
      GoResult.returned (false, some (errors.New
        (str "Unable to check email validity: " ++ rt.Quote r2.ErrorMsg))) ↔
      rt.Quote r.ErrorMsg = rt.Quote r2.ErrorMsg := by
    constructor
    · intro h
      simp only [errors.New, GoResult.returned.injEq, Prod.mk.injEq, true_and,
        Option.some.injEq, GoError.errorString.injEq] at h
      exact List.append_cancel_left h
    · intro h
      rw [h]
  exact ⟨key, fun hq => key.trans ⟨fun h => hq h, fun h => by rw [h]⟩⟩

theorem ValidateEmail_service_error_witness :
    Function.Injective scripted.Quote ∧
    (ValidateEmail scripted aliceAuthed (str "bob@example.com")
        (freshWorld [Except.ok (respWith 200
          (str "\x7b\"success\":false,\"error_msg\":\"bad token\"\x7d"))])).1 =
      GoResult.returned (false, some (errors.New
        (str "Unable to check email validity: \"bad token\""))) ∧
    (ValidateEmail scripted aliceAuthed (str "bob@example.com")
        (freshWorld [Except.ok (respWith 200
          (str "\x7b\"success\":false,\"error_msg\":\"bad token\"\x7d"))])).1 ≠
      (ValidateEmail scripted aliceAuthed (str "carol@example.com")
        (freshWorld [Except.ok (respWith 403
          (str "\x7b\"success\":false,\"error_msg\":\"quota exceeded\"\x7d"))])).1 :=
  ⟨sampleQuote_injective,
   (ValidateEmail_service_error scripted
      aliceAuthed tok123 (str "bob@example.com")
      (freshWorld [Except.ok (respWith 200
        (str "\x7b\"success\":false,\"error_msg\":\"bad token\"\x7d"))])
      (respWith 200 (str "\x7b\"success\":false,\"error_msg\":\"bad token\"\x7d"))
      ⟨str "\x7b\"success\":false,\"error_msg\":\"bad token\"\x7d", none⟩
      ⟨false, 0, 0, 0, 0, str "bad token"⟩
      aliceAuthed tok123 (str "carol@example.com")
      (freshWorld [Except.ok (respWith 403
        (str "\x7b\"success\":false,\"error_msg\":\"quota exceeded\"\x7d"))])
      (respWith 403 (str "\x7b\"success\":false,\"error_msg\":\"quota exceeded\"\x7d"))
      ⟨str "\x7b\"success\":false,\"error_msg\":\"quota exceeded\"\x7d", none⟩
      ⟨false, 0, 0, 0, 0, str "quota exceeded"⟩
      rfl rfl rfl rfl rfl rfl rfl rfl rfl rfl).1.trans (by decide),
   fun h => absurd (((ValidateEmail_service_error scripted
      aliceAuthed tok123 (str "bob@example.com")
      (freshWorld [Except.ok (respWith 200
        (str "\x7b\"success\":false,\"error_msg\":\"bad token\"\x7d"))])
      (respWith 200 (str "\x7b\"success\":false,\"error_msg\":\"bad token\"\x7d"))
      ⟨str "\x7b\"success\":false,\"error_msg\":\"bad token\"\x7d", none⟩
      ⟨false, 0, 0, 0, 0, str "bad token"⟩
      aliceAuthed tok123 (str "carol@example.com")
      (freshWorld [Except.ok (respWith 403
        (str "\x7b\"success\":false,\"error_msg\":\"quota exceeded\"\x7d"))])
      (respWith 403 (str "\x7b\"success\":false,\"error_msg\":\"quota exceeded\"\x7d"))
      ⟨str "\x7b\"success\":false,\"error_msg\":\"quota exceeded\"\x7d", none⟩
      ⟨false, 0, 0, 0, 0, str "quota exceeded"⟩
      rfl rfl rfl rfl rfl rfl rfl rfl rfl rfl).2.2 sampleQuote_injective).mp h) (by decide)⟩

/-- C6. `Authenticate` is atomic on failure: whenever it returns a non-nil
error (missing credentials, transport failure, non-200 status, nil body, or a
body the decoder rejects), the client it leaves is the client it was given, so
the stored token (unset or set), `ApiUsername` and `ApiKey` are unchanged. -/
theorem Authenticate_failure_keeps_client {σ : Type} (rt : Runtime σ) (n : NeverBounce)
    (w : World σ) (h : (Authenticate rt n w).1 ≠ none) :
    (Authenticate rt n w).2.1 = n ∧
      (Authenticate rt n w).2.1.Auth = n.Auth ∧
      (Authenticate rt n w).2.1.ApiUsername = n.ApiUsername ∧
      (Authenticate rt n w).2.1.ApiKey = n.ApiKey := by
  have key : (Authenticate rt n w).2.1 = n := by
    by_cases hc : n.ApiUsername = [] ∨ n.ApiKey = []
    · rw [Authenticate_missing rt n w hc]
    · have hu : n.ApiUsername ≠ [] := fun hh => hc (Or.inl hh)
      have hk : n.ApiKey ≠ [] := fun hh => hc (Or.inr hh)
      cases hDo : (rt.Do w.net (authRequest n)).1 with
      | error err => rw [Authenticate_transport rt n w err hu hk hDo]
      | ok resp =>
        by_cases hs : resp.StatusCode = 200
        · cases hb : resp.Body with
          | none => rw [Authenticate_nobody rt n w resp hu hk hDo hs hb]
          | some body =>
            cases hd : rt.DecodeAuth body with
            | error err =>
              rw [Authenticate_decode_error rt n w resp body err hu hk hDo hs hb hd]
            | ok p =>
              rw [Authenticate_decoded rt n w resp body p hu hk hDo hs hb hd] at h
              exact absurd rfl h
        · rw [Authenticate_status rt n w resp hu hk hDo hs]
  rw [key]
  exact ⟨rfl, rfl, rfl, rfl⟩

theorem Authenticate_failure_keeps_client_witness :
    (Authenticate scripted aliceAuthed
        (freshWorld [Except.ok (respWith 401 (str "denied"))])).1 ≠ none ∧
      (Authenticate scripted aliceAuthed
        (freshWorld [Except.ok (respWith 401 (str "denied"))])).2.1.Auth = some tok123 :=
  ⟨by decide,
    (Authenticate_failure_keeps_client scripted aliceAuthed
      (freshWorld [Except.ok (respWith 401 (str "denied"))]) (by decide)).2.1⟩

/-- C7, as stated, fails: the error for a non-200 response does not carry the
status.  A 401 and a 500 with the same body text give the same error. -/
theorem Authenticate_error_omits_status :
    (respWith 401 (str "denied")).StatusCode ≠ (respWith 500 (str "denied")).StatusCode ∧
      (Authenticate scripted aliceClient
          (freshWorld [Except.ok (respWith 401 (str "denied"))])).1 =
        (Authenticate scripted aliceClient
          (freshWorld [Except.ok (respWith 500 (str "denied"))])).1 := by
  decide

/-- C7, amended.  With non-empty credentials and a response whose status is
not 200, `Authenticate` returns the error whose message is "Received error
response from server for authentication request: " followed by the raw bytes
read from the body (nothing for a nil body).  The status is not in it: two such
responses give the same error exactly when their body texts are equal. -/
theorem Authenticate_error_carries_body {σ τ : Type} (rt : Runtime σ) (n : NeverBounce)
    (w : World σ) (resp : Response) (rt2 : Runtime τ) (n2 : NeverBounce) (w2 : World τ)
    (resp2 : Response)
    (hu : n.ApiUsername ≠ []) (hk : n.ApiKey ≠ [])
    (hDo : (rt.Do w.net (authRequest n)).1 = Except.ok resp) (hs : resp.StatusCode ≠ 200)
    (hu2 : n2.ApiUsername ≠ []) (hk2 : n2.ApiKey ≠ [])
    (hDo2 : (rt2.Do w2.net (authRequest n2)).1 = Except.ok resp2)
    (hs2 : resp2.StatusCode ≠ 200) :
    (Authenticate rt n w).1 = some (errors.New
        (str "Received error response from server for authentication request: " ++
          errorBodyOf resp)) ∧
      (∀ body : Body, resp.Body = some body → errorBodyOf resp = body.data) ∧
      (resp.Body = none → errorBodyOf resp = []) ∧
      ((Authenticate rt n w).1 = (Authenticate rt2 n2 w2).1 ↔
        errorBodyOf resp = errorBodyOf resp2) := by
  rw [Authenticate_status rt n w resp hu hk hDo hs,
    Authenticate_status rt2 n2 w2 resp2 hu2 hk2 hDo2 hs2]
  refine ⟨rfl, ?_, ?_, ?_⟩
  · intro body hb
    simp [errorBodyOf, hb, ioutil.ReadAll]
  · intro hb
    simp [errorBodyOf, hb]
  · simp [errors.New]

theorem Authenticate_error_carries_body_witness :
    (Authenticate scripted aliceClient
        (freshWorld [Except.ok (respWith 401 (str "denied"))])).1 =
      some (errors.New (str
        "Received error response from server for authentication request: denied")) ∧
    ((Authenticate scripted aliceClient
        (freshWorld [Except.ok (respWith 401 (str "denied"))])).1 =
      (Authenticate scripted aliceClient
        (freshWorld [Except.ok (respWith 500 (str "overloaded"))])).1 ↔
      errorBodyOf (respWith 401 (str "denied")) =
        errorBodyOf (respWith 500 (str "overloaded"))) :=
  ⟨(Authenticate_error_carries_body scripted aliceClient
      (freshWorld [Except.ok (respWith 401 (str "denied"))]) (respWith 401 (str "denied"))
      scripted aliceClient
      (freshWorld [Except.ok (respWith 500 (str "overloaded"))])
      (respWith 500 (str "overloaded"))
      (by decide) (by decide) rfl (by decide) (by decide) (by decide) rfl (by decide)).1.trans
      (by decide),
   (Authenticate_error_carries_body scripted aliceClient
      (freshWorld [Except.ok (respWith 401 (str "denied"))]) (respWith 401 (str "denied"))
      scripted aliceClient
      (freshWorld [Except.ok (respWith 500 (str "overloaded"))])
      (respWith 500 (str "overloaded"))
      (by decide) (by decide) rfl (by decide) (by decide) (by decide) rfl (by decide)).2.2.2⟩

/-- C8, as stated, fails for the empty body: a 200 response whose body is
present and zero-length does not give the "No body received" error.  The body
goes to the JSON decoder, and the call returns the decoder's error, `io.EOF`
for an empty stream. -/
theorem empty_body_not_no_body_error :
    (Authenticate scripted aliceClient (freshWorld [Except.ok (respWith 200 [])])).1 =
        some io.EOF ∧
      (Authenticate scripted aliceClient (freshWorld [Except.ok (respWith 200 [])])).1 ≠
        some (errors.New (str "No body received from authentication response")) ∧
      (ValidateEmail scripted aliceAuthed (str "bob@example.com")
          (freshWorld [Except.ok (respWith 200 [])])).1 =
        GoResult.returned (false, some io.EOF) ∧
      (ValidateEmail scripted aliceAuthed (str "bob@example.com")
          (freshWorld [Except.ok (respWith 200 [])])).1 ≠
        GoResult.returned
          (false, some (errors.New (str "No body received from authentication response"))) := by
  decide

/-- C8, amended.  On a 200 response whose body is missing (nil) or empty
(zero-length), both operations fail, given that the JSON decoder answers
`io.EOF` on an empty stream: `Authenticate` (non-empty credentials) returns an
error and leaves the client, and so the stored token, as it was, and
`ValidateEmail` (token stored) returns `(false, err)`.  For the nil body the
error is "No body received from authentication response"; for the empty body
it is the decoder's `io.EOF`, which is a different error. -/
theorem body_missing_or_empty {σ : Type} (rt : Runtime σ) (n m : NeverBounce)
    (tok : AuthenticationResponse) (e : GoString) (w v : World σ) (respA respV : Response)
    (hEOFa : rt.DecodeAuth ⟨[], none⟩ = Except.error io.EOF)
    (hEOFs : rt.DecodeSingle ⟨[], none⟩ = Except.error io.EOF)
    (hu : n.ApiUsername ≠ []) (hk : n.ApiKey ≠ [])
    (hDoA : (rt.Do w.net (authRequest n)).1 = Except.ok respA)
    (hsA : respA.StatusCode = 200)
    (hbA : respA.Body = none ∨ respA.Body = some ⟨[], none⟩)
    (ha : m.Auth = some tok)
    (hDoV : (rt.Do v.net (singleRequest tok.AccessToken e)).1 = Except.ok respV)
    (hbV : respV.Body = none ∨ respV.Body = some ⟨[], none⟩) :
    ((Authenticate rt n w).1 ≠ none ∧ (Authenticate rt n w).2.1 = n) ∧
    (respA.Body = none → (Authenticate rt n w).1 =
      some (errors.New (str "No body received from authentication response"))) ∧
    (respA.Body = some ⟨[], none⟩ →
      (Authenticate rt n w).1 = some io.EOF ∧
      (Authenticate rt n w).1 ≠
        some (errors.New (str "No body received from authentication response"))) ∧
    (∃ err : GoError, (ValidateEmail rt m e v).1 = GoResult.returned (false, some err)) ∧
    (respV.Body = none → (ValidateEmail rt m e v).1 = GoResult.returned
      (false, some (errors.New (str "No body received from authentication response")))) ∧
    (respV.Body = some ⟨[], none⟩ →
      (ValidateEmail rt m e v).1 = GoResult.returned (false, some io.EOF) ∧
      (ValidateEmail rt m e v).1 ≠ GoResult.returned
        (false, some (errors.New (str "No body received from authentication response")))) := by
  have hne : io.EOF ≠ errors.New (str "No body received from authentication response") := by
    decide
  have hA0 := Authenticate_nobody rt n w respA hu hk hDoA hsA
  have hA1 := fun hb =>
    Authenticate_decode_error rt n w respA ⟨[], none⟩ io.EOF hu hk hDoA hsA hb hEOFa
  have hV0 := ValidateEmail_nobody rt m tok e v respV ha hDoV
  have hV1 := fun hb =>
    ValidateEmail_decode_error rt m tok e v respV ⟨[], none⟩ io.EOF ha hDoV hb hEOFs
  refine ⟨?_, fun hb => by rw [hA0 hb], fun hb => ?_, ?_, fun hb => by rw [hV0 hb],
    fun hb => ?_⟩
  · rcases hbA with hb | hb
    · rw [hA0 hb]
      exact ⟨fun h => Option.noConfusion h, rfl⟩
    · rw [hA1 hb]
      exact ⟨fun h => Option.noConfusion h, rfl⟩
  · rw [hA1 hb]
    exact ⟨rfl, fun h => hne (Option.some.inj h)⟩
  · rcases hbV with hb | hb
    · exact ⟨_, by rw [hV0 hb]⟩
    · exact ⟨_, by rw [hV1 hb]⟩
  · rw [hV1 hb]
    refine ⟨rfl, fun h => hne ?_⟩
    injection h with h
    injection h with _ h
    exact Option.some.inj h

theorem body_missing_or_empty_witness :
    ((Authenticate scripted aliceClient (freshWorld [Except.ok ⟨200, none⟩])).1 =
        some (errors.New (str "No body received from authentication response")) ∧
      (Authenticate scripted aliceClient (freshWorld [Except.ok ⟨200, none⟩])).2.1 =
        aliceClient ∧
      (ValidateEmail scripted aliceAuthed (str "bob@example.com")
          (freshWorld [Except.ok (respWith 200 [])])).1 =
        GoResult.returned (false, some io.EOF)) ∧
    ((Authenticate scripted aliceAuthed (freshWorld [Except.ok (respWith 200 [])])).1 =
        some io.EOF ∧
      (Authenticate scripted aliceAuthed (freshWorld [Except.ok (respWith 200 [])])).2.1 =
        aliceAuthed ∧
      (ValidateEmail scripted aliceAuthed (str "bob@example.com")
          (freshWorld [Except.ok ⟨200, none⟩])).1 =
        GoResult.returned
          (false, some (errors.New (str "No body received from authentication response")))) :=
  ⟨⟨(body_missing_or_empty scripted aliceClient aliceAuthed tok123 (str "bob@example.com")
        (freshWorld [Except.ok ⟨200, none⟩]) (freshWorld [Except.ok (respWith 200 [])])
        ⟨200, none⟩ (respWith 200 [])
        rfl rfl (by decide) (by decide) rfl rfl (Or.inl rfl) rfl rfl (Or.inr rfl)).2.1 rfl,
     (body_missing_or_empty scripted aliceClient aliceAuthed tok123 (str "bob@example.com")
        (freshWorld [Except.ok ⟨200, none⟩]) (freshWorld [Except.ok (respWith 200 [])])
        ⟨200, none⟩ (respWith 200 [])
        rfl rfl (by decide) (by decide) rfl rfl (Or.inl rfl) rfl rfl (Or.inr rfl)).1.2,
     ((body_missing_or_empty scripted aliceClient aliceAuthed tok123 (str "bob@example.com")
        (freshWorld [Except.ok ⟨200, none⟩]) (freshWorld [Except.ok (respWith 200 [])])
        ⟨200, none⟩ (respWith 200 [])
        rfl rfl (by decide) (by decide) rfl rfl (Or.inl rfl) rfl rfl
        (Or.inr rfl)).2.2.2.2.2 rfl).1⟩,
   ⟨((body_missing_or_empty scripted aliceAuthed aliceAuthed tok123 (str "bob@example.com")
        (freshWorld [Except.ok (respWith 200 [])]) (freshWorld [Except.ok ⟨200, none⟩])
        (respWith 200 []) ⟨200, none⟩
        rfl rfl (by decide) (by decide) rfl rfl (Or.inr rfl) rfl rfl (Or.inl rfl)).2.2.1 rfl).1,
     (body_missing_or_empty scripted aliceAuthed aliceAuthed tok123 (str "bob@example.com")
        (freshWorld [Except.ok (respWith 200 [])]) (freshWorld [Except.ok ⟨200, none⟩])
        (respWith 200 []) ⟨200, none⟩
        rfl rfl (by decide) (by decide) rfl rfl (Or.inr rfl) rfl rfl (Or.inl rfl)).1.2,
     (body_missing_or_empty scripted aliceAuthed aliceAuthed tok123 (str "bob@example.com")
        (freshWorld [Except.ok (respWith 200 [])]) (freshWorld [Except.ok ⟨200, none⟩])
        (respWith 200 []) ⟨200, none⟩
        rfl rfl (by decide) (by decide) rfl rfl (Or.inr rfl) rfl rfl
        (Or.inl rfl)).2.2.2.2.1 rfl⟩⟩

/-- C9 does not hold of the code.  When the 200 body is one the decoder accepts
while leaving the pointer nil (the JSON literal `null`), `Authenticate`
returns a nil error and stores a nil token, and the `ValidateEmail` that
follows fails with "Authorization missing. Authenticate() must be called first
before making API requests". -/
theorem Authenticate_succeeds_without_token {σ : Type} (rt : Runtime σ) (n : NeverBounce)
    (w : World σ) (resp : Response) (body : Body)
    (hu : n.ApiUsername ≠ []) (hk : n.ApiKey ≠ [])
    (hDo : (rt.Do w.net (authRequest n)).1 = Except.ok resp) (hs : resp.StatusCode = 200)
    (hb : resp.Body = some body) (hd : rt.DecodeAuth body = Except.ok none) :
    (Authenticate rt n w).1 = none ∧
      (Authenticate rt n w).2.1.Auth = none ∧
      ∀ (e : GoString) (v : World σ),
        (ValidateEmail rt (Authenticate rt n w).2.1 e v).1 =
          GoResult.returned (false, some (errors.New (str
            "Authorization missing. Authenticate() must be called first before making API requests"))) := by
  rw [Authenticate_decoded rt n w resp body none hu hk hDo hs hb hd]
  refine ⟨rfl, rfl, fun e v => ?_⟩
  rw [ValidateEmail_unauthenticated rt _ e v rfl]

theorem Authenticate_succeeds_without_token_witness :
    (Authenticate scripted aliceClient
        (freshWorld [Except.ok (respWith 200 (str "null"))])).1 = none ∧
      (Authenticate scripted aliceClient
        (freshWorld [Except.ok (respWith 200 (str "null"))])).2.1.Auth = none :=
  ⟨(Authenticate_succeeds_without_token scripted aliceClient
      (freshWorld [Except.ok (respWith 200 (str "null"))]) (respWith 200 (str "null"))
      ⟨str "null", none⟩ (by decide) (by decide) rfl rfl rfl rfl).1,
   (Authenticate_succeeds_without_token scripted aliceClient
      (freshWorld [Except.ok (respWith 200 (str "null"))]) (respWith 200 (str "null"))
      ⟨str "null", none⟩ (by decide) (by decide) rfl rfl rfl rfl).2.1⟩

/-- C10 does not hold of the code.  With a token stored, when the body is one
the decoder accepts while leaving the result pointer nil (the JSON literal
`null`), `ValidateEmail` does not return: line 133 reads `Success` through the
nil pointer.  The client is left unchanged all the same. -/
theorem ValidateEmail_nil_result_dereference {σ : Type} (rt : Runtime σ) (n : NeverBounce)
    (tok : AuthenticationResponse) (e : GoString) (w : World σ) (resp : Response)
    (body : Body) (ha : n.Auth = some tok)
    (hDo : (rt.Do w.net (singleRequest tok.AccessToken e)).1 = Except.ok resp)
    (hb : resp.Body = some body) (hd : rt.DecodeSingle body = Except.ok none) :
    (ValidateEmail rt n e w).1 = GoResult.nilDeref ∧
      (∀ p : Bool × Option GoError, (ValidateEmail rt n e w).1 ≠ GoResult.returned p) ∧
      (ValidateEmail rt n e w).2.1 = n := by
  rw [ValidateEmail_nil rt n tok e w resp body ha hDo hb hd]
  exact ⟨rfl, ⟨fun p hp => GoResult.noConfusion hp, rfl⟩⟩

theorem ValidateEmail_nil_result_dereference_witness :
    (ValidateEmail scripted aliceAuthed (str "bob@example.com")
        (freshWorld [Except.ok (respWith 200 (str "null"))])).1 = GoResult.nilDeref :=
  (ValidateEmail_nil_result_dereference scripted aliceAuthed tok123 (str "bob@example.com")
    (freshWorld [Except.ok (respWith 200 (str "null"))]) (respWith 200 (str "null"))
    ⟨str "null", none⟩ rfl rfl rfl rfl).1

/-! ## The form body of the validation request -/

theorem singleRequest_entries (t e : GoString) :
    ((url.Values.empty.Set (str "access_token") t).Set (str "email") e).entries =
      [(str "access_token", [t]), (str "email", [e])] := by
  have h1 : str "email" ≠ str "access_token" := by decide
  have h2 : strLt (str "email") (str "access_token") = false := by decide
  simp [url.Values.Set, url.Values.empty, url.setEntry, h1, h2]

/-- The body written at lines 108-112 is `access_token=<token>&email=<address>`,
both values query-escaped. -/
theorem singleRequest_body (t e : GoString) :
    (singleRequest t e).Body =
      str "access_token=" ++ url.QueryEscape t ++ str "&email=" ++ url.QueryEscape e := by
  have h1 : url.QueryEscape (str "access_token") ++ [61] = str "access_token=" := by decide
  have h2 : [38] ++ url.QueryEscape (str "email") ++ [61] = str "&email=" := by decide
  simp only [singleRequest, http.NewRequest, Request.AddHeader, url.Values.Encode,
    url.Values.items, singleRequest_entries]
  simp only [List.flatMap_cons, List.flatMap_nil, List.map_cons, List.map_nil,
    List.intercalate, List.intersperse, List.flatten, List.append_nil, List.singleton_append,
    List.cons_append, List.nil_append, List.append_assoc]
  rw [← h1, ← h2]
  simp

/-- Every byte is `UInt8.ofNat` of a number below 256. -/
theorem forall_byte (P : UInt8 → Prop) (h : ∀ k, k < 256 → P (UInt8.ofNat k)) (c : UInt8) :
    P c := by
  have hc : UInt8.ofNat c.toNat = c :=
    UInt8.toNat.inj (UInt8.toNat_ofNat_of_lt (UInt8.toNat_lt_size c))
  rw [← hc]
  exact h c.toNat (UInt8.toNat_lt_size c)

theorem unescape_other (c : UInt8) (r : GoString) (hc : c ≠ 37) :
    url.unescape (c :: r) = (if c = 43 then 32 else c) :: url.unescape r := by
  match r with
  | [] => simp [url.unescape]
  | [d] => simp [url.unescape]
  | h :: l :: rest => simp [url.unescape, hc]

theorem unescape_percent (h l : UInt8) (r : GoString) :
    url.unescape (37 :: h :: l :: r) =
      UInt8.ofNat (url.unhex h * 16 + url.unhex l) :: url.unescape r := by
  simp [url.unescape]

theorem plain_byte (c : UInt8) : url.shouldEscape c = false → c ≠ 37 ∧ c ≠ 43 ∧ c ≠ 38 :=
  forall_byte (fun c => url.shouldEscape c = false → c ≠ 37 ∧ c ≠ 43 ∧ c ≠ 38)
    (by decide) c

theorem hex_byte (c : UInt8) :
    UInt8.ofNat (url.unhex (url.upperhex (c.toNat / 16)) * 16 +
      url.unhex (url.upperhex (c.toNat % 16))) = c ∧
    url.upperhex (c.toNat / 16) ≠ 38 ∧ url.upperhex (c.toNat % 16) ≠ 38 :=
  forall_byte (fun c => UInt8.ofNat (url.unhex (url.upperhex (c.toNat / 16)) * 16 +
      url.unhex (url.upperhex (c.toNat % 16))) = c ∧
    url.upperhex (c.toNat / 16) ≠ 38 ∧ url.upperhex (c.toNat % 16) ≠ 38) (by decide) c

/-- Unescaping undoes `url.QueryEscape`. -/
theorem unescape_QueryEscape (s : GoString) : url.unescape (url.QueryEscape s) = s := by
  induction s with
  | nil => simp [url.QueryEscape, url.unescape]
  | cons c s ih =>
    have hcons : url.QueryEscape (c :: s) = url.escapeByte c ++ url.QueryEscape s := by
      simp [url.QueryEscape]
    rw [hcons]
    unfold url.escapeByte
    by_cases he : url.shouldEscape c = true
    · by_cases hsp : c = 32
      · subst hsp
        simp only [he, if_true, List.singleton_append]
        rw [unescape_other 43 _ (by decide), ih]
        rfl
      · simp only [he, hsp, if_true, if_false, List.cons_append, List.nil_append]
        rw [unescape_percent, ih, (hex_byte c).1]
    · have he2 : url.shouldEscape c = false := by simpa using he
      obtain ⟨h37, h43, _⟩ := plain_byte c he2
      simp only [he2, Bool.false_eq_true, if_false, List.singleton_append]
      rw [unescape_other c _ h37, ih]
      simp [h43]

/-- `url.QueryEscape` loses nothing: it is injective. -/
theorem QueryEscape_injective (s t : GoString) (h : url.QueryEscape s = url.QueryEscape t) :
    s = t := by
  rw [← unescape_QueryEscape s, ← unescape_QueryEscape t, h]

/-- The escaped form of a string has no `&` in it. -/
theorem amp_not_mem_QueryEscape (s : GoString) : (38 : UInt8) ∉ url.QueryEscape s := by
  induction s with
  | nil => simp [url.QueryEscape]
  | cons c s ih =>
    have hcons : url.QueryEscape (c :: s) = url.escapeByte c ++ url.QueryEscape s := by
      simp [url.QueryEscape]
    rw [hcons, List.mem_append]
    rintro (hm | hm)
    · unfold url.escapeByte at hm
      by_cases he : url.shouldEscape c = true
      · by_cases hsp : c = 32
        · subst hsp
          simp only [he, if_true, List.mem_singleton] at hm
          exact absurd hm (by decide)
        · simp only [he, hsp, if_true, if_false, List.mem_cons, List.mem_singleton,
            List.not_mem_nil, or_false] at hm
          rcases hm with hm | hm | hm
          · exact absurd hm (by decide)
          · exact (hex_byte c).2.1 hm.symm
          · exact (hex_byte c).2.2 hm.symm
      · have he2 : url.shouldEscape c = false := by simpa using he
        simp only [he2, Bool.false_eq_true, if_false, List.mem_singleton] at hm
        exact (plain_byte c he2).2.2 hm.symm
    · exact ih hm

/-- Two lists that agree after being cut at the first occurrence of `a` agree
on both sides of the cut. -/
theorem append_cons_cancel {a : UInt8} :
    ∀ (xs xs2 ys ys2 : GoString), a ∉ xs → a ∉ xs2 → xs ++ a :: ys = xs2 ++ a :: ys2 →
      xs = xs2 ∧ ys = ys2
  | [], [], ys, ys2, _, _, h => by simpa using h
  | [], x :: xs2, ys, ys2, _, h2, h => by
    simp only [List.nil_append, List.cons_append, List.cons.injEq] at h
    exact absurd (List.mem_cons_self _ _) (h.1 ▸ h2)
  | x :: xs, [], ys, ys2, h1, _, h => by
    simp only [List.nil_append, List.cons_append, List.cons.injEq] at h
    exact absurd (List.mem_cons_self _ _) (h.1.symm ▸ h1)
  | x :: xs, y :: xs2, ys, ys2, h1, h2, h => by
    simp only [List.cons_append, List.cons.injEq] at h
    have := append_cons_cancel xs xs2 ys ys2 (fun hm => h1 (List.mem_cons_of_mem _ hm))
      (fun hm => h2 (List.mem_cons_of_mem _ hm)) h.2
    rw [h.1, this.1, this.2]
    exact ⟨rfl, rfl⟩

/-- The validation request determines the token and the address it was built
from. -/
theorem singleRequest_injective (t e t2 e2 : GoString)
    (h : singleRequest t e = singleRequest t2 e2) : t = t2 ∧ e = e2 := by
  have hb : (singleRequest t e).Body = (singleRequest t2 e2).Body := by rw [h]
  rw [singleRequest_body, singleRequest_body] at hb
  have hamp : str "&email=" = 38 :: str "email=" := by decide
  rw [hamp] at hb
  simp only [List.append_assoc, List.append_cancel_left_eq, List.cons_append] at hb
  have := append_cons_cancel (url.QueryEscape t) (url.QueryEscape t2) _ _
    (amp_not_mem_QueryEscape t) (amp_not_mem_QueryEscape t2) hb
  refine ⟨QueryEscape_injective t t2 this.1, QueryEscape_injective e e2 ?_⟩
  exact List.append_cancel_left this.2

/-- A string of unreserved characters is its own escaped form. -/
theorem QueryEscape_plain (s : GoString) (h : ∀ c ∈ s, url.shouldEscape c = false) :
    url.QueryEscape s = s := by
  induction s with
  | nil => simp [url.QueryEscape]
  | cons c s ih =>
    have hcons : url.QueryEscape (c :: s) = url.escapeByte c ++ url.QueryEscape s := by
      simp [url.QueryEscape]
    rw [hcons, ih (fun d hd => h d (List.mem_cons_of_mem _ hd))]
    simp [url.escapeByte, h c (List.mem_cons_self _ _)]

/-- C5. With non-empty credentials and any prior token, when the token endpoint
answers 200 with a body that decodes to a token object, `Authenticate` returns
nil and the stored token is the decoded one.  Every `ValidateEmail(e)` on the
client it leaves then hands the transport exactly one request: a POST to
`API_BASE_URL + "/single"` whose body is `access_token=<token>&email=<e>` with
both values query-escaped; unescaping gives back the access token and `e`, the
request determines both, and a token of unreserved characters such as
`tok123` appears verbatim.  The call leaves the client as it was, so the same
holds of each later call. -/
theorem Authenticate_then_ValidateEmail {σ : Type} (rt : Runtime σ) (n : NeverBounce)
    (w : World σ) (resp : Response) (body : Body) (tok : AuthenticationResponse)
    (hu : n.ApiUsername ≠ []) (hk : n.ApiKey ≠ [])
    (hDo : (rt.Do w.net (authRequest n)).1 = Except.ok resp) (hs : resp.StatusCode = 200)
    (hb : resp.Body = some body) (hd : rt.DecodeAuth body = Except.ok (some tok)) :
    (Authenticate rt n w).1 = none ∧
      (Authenticate rt n w).2.1.Auth = some tok ∧
      ∀ (e : GoString) (v : World σ),
        (ValidateEmail rt (Authenticate rt n w).2.1 e v).2.2.sent =
            v.sent ++ [singleRequest tok.AccessToken e] ∧
          (ValidateEmail rt (Authenticate rt n w).2.1 e v).2.1 = (Authenticate rt n w).2.1 ∧
          (singleRequest tok.AccessToken e).Method = str "POST" ∧
          (singleRequest tok.AccessToken e).URL = API_BASE_URL ++ str "/single" ∧
          (singleRequest tok.AccessToken e).Body =
            str "access_token=" ++ url.QueryEscape tok.AccessToken ++ str "&email=" ++
              url.QueryEscape e ∧
          url.unescape (url.QueryEscape tok.AccessToken) = tok.AccessToken ∧
          url.unescape (url.QueryEscape e) = e ∧
          (∀ t2 e2 : GoString, singleRequest tok.AccessToken e = singleRequest t2 e2 →
            tok.AccessToken = t2 ∧ e = e2) ∧
          ((∀ c ∈ tok.AccessToken, url.shouldEscape c = false) →
            (singleRequest tok.AccessToken e).Body =
              str "access_token=" ++ tok.AccessToken ++ str "&email=" ++ url.QueryEscape e) := by
  have hA := Authenticate_decoded rt n w resp body (some tok) hu hk hDo hs hb hd
  have hAuth : (Authenticate rt n w).2.1.Auth = some tok := by rw [hA]
  refine ⟨by rw [hA], hAuth, fun e v => ?_⟩
  refine ⟨ValidateEmail_sent rt _ tok e v hAuth, ValidateEmail_client rt _ e v, rfl, rfl,
    singleRequest_body _ _, unescape_QueryEscape _, unescape_QueryEscape _,
    fun t2 e2 h => singleRequest_injective _ _ _ _ h, fun hp => ?_⟩
  rw [singleRequest_body, QueryEscape_plain _ hp]

theorem Authenticate_then_ValidateEmail_witness :
    (Authenticate scripted aliceClient
        (freshWorld [Except.ok (respWith 200 tokenJSON)])).1 = none ∧
      (Authenticate scripted aliceClient
        (freshWorld [Except.ok (respWith 200 tokenJSON)])).2.1.Auth = some tok123 ∧
      (ValidateEmail scripted
          (Authenticate scripted aliceClient
            (freshWorld [Except.ok (respWith 200 tokenJSON)])).2.1
          (str "bob@example.com") (freshWorld [])).2.2.sent =
        [singleRequest (str "tok123") (str "bob@example.com")] ∧
      (singleRequest (str "tok123") (str "bob@example.com")).Body =
        str "access_token=tok123&email=bob%40example.com" :=
  ⟨(Authenticate_then_ValidateEmail scripted aliceClient
      (freshWorld [Except.ok (respWith 200 tokenJSON)]) (respWith 200 tokenJSON)
      ⟨tokenJSON, none⟩ tok123 (by decide) (by decide) rfl rfl rfl rfl).1,
   (Authenticate_then_ValidateEmail scripted aliceClient
      (freshWorld [Except.ok (respWith 200 tokenJSON)]) (respWith 200 tokenJSON)
      ⟨tokenJSON, none⟩ tok123 (by decide) (by decide) rfl rfl rfl rfl).2.1,
   ((Authenticate_then_ValidateEmail scripted aliceClient
      (freshWorld [Except.ok (respWith 200 tokenJSON)]) (respWith 200 tokenJSON)
      ⟨tokenJSON, none⟩ tok123 (by decide) (by decide) rfl rfl rfl rfl).2.2
        (str "bob@example.com") (freshWorld [])).1,
   (((Authenticate_then_ValidateEmail scripted aliceClient
      (freshWorld [Except.ok (respWith 200 tokenJSON)]) (respWith 200 tokenJSON)
      ⟨tokenJSON, none⟩ tok123 (by decide) (by decide) rfl rfl rfl rfl).2.2
        (str "bob@example.com") (freshWorld [])).2.2.2.2.1).trans (by decide)⟩

end neverbounce
